import Mathlib

/-!
Verification of the session and tool-dispatch layer of `mailtm_server.py`
(a temporary-email tool server backed by the mail.tm REST API).

The Python module keeps one global session record (`_session`: token,
account_id, address), persists it as a JSON file, and exposes tools that
validate the session, perform remote HTTP calls and format the response
into one human-readable string.  The shallow embedding below mirrors that
code:

* `Session` / `World` model the in-memory `_session` dictionary together
  with the durable session file (`None` = file absent).  Files are only
  ever written by `_save_session`, which dumps all three keys, so the file
  payload is a full `Session`; storage I/O failures are swallowed by the
  code (`_save_session` / `_clear_session`) and the model assumes the
  write / removal succeeds.
* Each remote call made by a tool is one `HttpOutcome` argument: either
  the `requests` call raised (`exn`, covering timeouts and transport
  errors) or a response arrived with a status code and a body.  The body
  is an `Except`: `.error` when the later `.json()` parse raises.  JSON
  payloads are modelled as structures holding exactly the fields the code
  reads, with `Option` for keys the code reads through `.get` defaults;
  keys the code subscripts directly (`data["token"]`, `data["id"]`) are
  `Option` fields whose absence raises a `KeyError`.
* `requests.Response.raise_for_status` (an external library call, out of
  scope per the spec) is modelled by `raiseForStatus`, raising for 4xx and
  5xx with a client-generated message `raise_msg`.
* `random.choices(population, k=k)` is modelled by `pyChoices` over an
  arbitrary index oracle `seed : Nat → Nat`: every sequence of draws is
  some oracle, and every oracle draws from the population.
* Python truthiness of the optional strings (`if not _session["token"]`,
  `... or "unknown"`) is `strTruthy`; f-string interpolation of a possibly
  `None` value is `pyStr`.

Each tool becomes a total Lean function from the starting `World` and its
remote outcomes to the final `World` and the returned string; totality of
these functions is the embedding of "no exception ever crosses the tool
boundary".
-/

/-- In-memory session state, `_session` in `mailtm_server.py` (lines 27-31):
the three credential fields, each absent (`None`) or present. -/
structure Session where
  token : Option String
  account_id : Option String
  address : Option String
deriving Repr, DecidableEq

/-- The session-visible world: the in-memory `_session` plus the durable
session file at `SESSION_FILE` (`none` = the file does not exist). -/
structure World where
  session : Session
  file : Option Session
deriving Repr, DecidableEq

/-- Python truthiness of an optional string: `None` and `""` are falsy. -/
def strTruthy : Option String → Bool
  | none => false
  | some s => s != ""

/-- Python f-string interpolation of an optional string: `None` renders as
the literal text `None`. -/
def pyStr : Option String → String
  | none => "None"
  | some s => s

/-- `_load_session` (lines 34-44): if the session file exists, its JSON
payload is merged into `_session` via `dict.update`; files are written only
by `_save_session` with all three keys, so the merge replaces the whole
record.  If the file is absent the in-memory state is left unchanged
(read/parse failures are likewise swallowed with the state unchanged). -/
def load_session (w : World) : World :=
  match w.file with
  | some rec => { w with session := rec }
  | none => w

/-- `_save_session` (lines 47-53): dump the in-memory session to the file;
write failures are logged and swallowed (modelled as a successful write). -/
def save_session (w : World) : World :=
  { w with file := some w.session }

/-- `_clear_session` (lines 56-63): reset all three fields to `None` in
memory and remove the file; removal failures are swallowed. -/
def clear_session (_w : World) : World :=
  ⟨⟨none, none, none⟩, none⟩

/-- `_auth_headers` (lines 66-70): reload the session, then a bearer header
when the token is truthy, else no headers. -/
def auth_headers (w : World) : World × List (String × String) :=
  let w1 := load_session w
  (w1, if strTruthy w1.session.token then
        [("Authorization", "Bearer " ++ pyStr w1.session.token)]
      else [])

/-- The exact instructional message returned when a session-requiring tool
is called without an active session (line 77). -/
def no_session_msg : String := "No active session. Use create_temp_email or login first."

/-- `_require_session` (lines 73-78): reload the session, then the
no-active-session message when the token is not truthy, else `none`. -/
def require_session (w : World) : World × Option String :=
  let w1 := load_session w
  if strTruthy w1.session.token then (w1, none) else (w1, some no_session_msg)

/-- Outcome of one `requests` call: the call itself raised (`exn`, e.g. a
timeout after the fixed 10-second limit), or a response with its status
code and the result of the later `.json()` parse of its body. -/
inductive HttpOutcome (α : Type) where
  | exn (msg : String)
  | resp (status : Nat) (body : Except String α)

/-- Message of the `requests.HTTPError` raised by `raise_for_status` for a
4xx/5xx response; the exact client-generated text is irrelevant to the
code, which only interpolates it into its error strings. -/
def raise_msg (status : Nat) : String := "HTTP error " ++ toString status

/-- Model of `resp.raise_for_status()`: raises for status codes 400-599,
does nothing otherwise. -/
def raiseForStatus (status : Nat) : Except String Unit :=
  if 400 ≤ status ∧ status < 600 then .error (raise_msg status) else .ok ()

/-- Rendering of a Python `KeyError` for a missing dictionary key `k`:
`str(KeyError('k'))` is the repr of the key. -/
def keyError (k : String) : String := "'" ++ (k ++ "'")

/-- `string.ascii_lowercase`. -/
def ascii_lowercase : String := "abcdefghijklmnopqrstuvwxyz"

/-- `string.digits`. -/
def digits_str : String := "0123456789"

/-- `string.ascii_letters`. -/
def ascii_letters : String := ascii_lowercase ++ "ABCDEFGHIJKLMNOPQRSTUVWXYZ"

/-- Population used for random usernames (line 120):
`string.ascii_lowercase + string.digits`. -/
def lower_alnum : List Char := (ascii_lowercase ++ digits_str).data

/-- Population used for random passwords (line 125):
`string.ascii_letters + string.digits + "!@#$%"`. -/
def password_chars : List Char := (ascii_letters ++ (digits_str ++ "!@#$%")).data

/-- `random.choices(population, k=k)`: `k` independent draws from the
population, the randomness supplied by an index oracle. -/
def pyChoices (population : List Char) (k : Nat) (seed : Nat → Nat) : List Char :=
  (List.range k).map (fun i => population.getD (seed i % population.length) 'a')

/-- The random local part of a generated address (line 120): 10 draws from
the lowercase+digits population. -/
def gen_username (seed : Nat → Nat) : String := ⟨pyChoices lower_alnum 10 seed⟩

/-- A generated password (lines 124-126): 16 draws from
letters+digits+`!@#$%`. -/
def gen_password (seed : Nat → Nat) : String := ⟨pyChoices password_chars 16 seed⟩

/-- Body of a `POST /token` response as read by the code: `data["token"]`
and `data["id"]` subscripted directly, so each field records whether the
key is present (`none` = `KeyError` on access). -/
structure TokenBody where
  token : Option String
  id : Option String
deriving Repr, DecidableEq

/-- One entry of the inbox listing, holding the fields `get_inbox` reads
through `.get` defaults; `fromAddr` collapses the two-level
`m.get("from", {}).get("address", "unknown")` lookup. -/
structure MessageSummary where
  fromAddr : Option String
  subject : Option String
  seen : Option Bool
  id : Option String
deriving Repr, DecidableEq

/-- Body of a `GET /messages?page=` response: the `hydra:member` list and
the `hydra:totalItems` count, both read through `.get` defaults. -/
structure InboxBody where
  member : Option (List MessageSummary)
  totalItems : Option Int
deriving Repr, DecidableEq

/-- Body of a `GET /messages/{id}` response, holding the fields
`read_email` reads; all are read through `.get` defaults.  `to` is the
recipient list, each entry's `address` read with default `""`. -/
structure MessageDetail where
  fromAddr : Option String
  subject : Option String
  toRecipients : Option (List (Option String))
  createdAt : Option String
  text : Option String
  html : Option (List String)
deriving Repr, DecidableEq

/-- Body of a `GET /me` response, holding the fields `get_account_info`
reads through `.get` defaults. -/
structure AccountBody where
  address : Option String
  id : Option String
  quota : Option Int
  used : Option Int
  createdAt : Option String
  updatedAt : Option String
deriving Repr, DecidableEq

/-- Python `str.rstrip()`: drop trailing whitespace. -/
def pyRstrip (s : String) : String :=
  ⟨(s.data.reverse.dropWhile Char.isWhitespace).reverse⟩

/-- The `"-" * 60` divider line. -/
def dashes60 : String := ⟨List.replicate 60 '-'⟩

/-- `list_domains` (lines 83-97): fetch the domain list and render it, or
report absence; any exception becomes the generic error string. -/
def list_domains (domResp : HttpOutcome (List String)) : String :=
  match domResp with
  | .exn m => "Error listing domains: " ++ m
  | .resp status body =>
    match raiseForStatus status with
    | .error m => "Error listing domains: " ++ m
    | .ok _ =>
      match body with
      | .error m => "Error listing domains: " ++ m
      | .ok domains =>
        if domains.isEmpty then "No domains available at the moment."
        else "Available domains:\n" ++
          String.intercalate "\n" (domains.map (fun d => "  - " ++ d))

/-- Generic error string of `create_temp_email` (line 162). -/
def create_errmsg (m : String) : String := "Error creating email: " ++ m

/-- Dedicated HTTP 422 message of `create_temp_email` (line 135). -/
def conflict_msg (address : String) : String :=
  "Error: Address '" ++ (address ++ "' is already taken or invalid. Try a different one.")

/-- Success message of `create_temp_email` (lines 153-159). -/
def create_success_msg (address password account_id : String) : String :=
  "Temporary email created!\nAddress:  " ++
    (address ++ ("\nPassword: " ++
      (password ++ ("\nAccount ID: " ++
        (account_id ++ "\n\nSession is active. Use get_inbox() to check messages.")))))

/-- Result of the address-resolution phase of `create_temp_email`:
an exception to be caught at the tool boundary, an early `return` from
inside the `try` block, or the resolved address. -/
inductive Resolved where
  | err (msg : String)
  | early (msg : String)
  | ok (address : String)

/-- Lines 114-121 of `create_temp_email`: when the given address is empty,
fetch the domain list and build `<10 random lowercase-alnum chars>@<first
domain>`; an empty domain list is an early return. -/
def resolve_address (address : String) (domResp : HttpOutcome (List String))
    (us : Nat → Nat) : Resolved :=
  if address = "" then
    match domResp with
    | .exn m => .err m
    | .resp status body =>
      match raiseForStatus status with
      | .error m => .err m
      | .ok _ =>
        match body with
        | .error m => .err m
        | .ok domains =>
          match domains with
          | [] => .early "No domains available to create an account."
          | d :: _ => .ok (gen_username us ++ ("@" ++ d))
  else .ok address

/-- Lines 124-126 of `create_temp_email`: generate a password when the
given one is empty. -/
def resolve_password (password : String) (ps : Nat → Nat) : String :=
  if password = "" then gen_password ps else password

/-- `create_temp_email` (lines 100-162).  Remote calls in order: the domain
list (only when the address is empty), `POST /accounts` (status 422 gives
the dedicated conflict message, checked before `raise_for_status`; the
parsed body is unused), `POST /token`.  Only after the token response is
subscripted successfully are the three session fields assigned and saved;
note that `_session["token"]` is assigned (line 148) before `data["id"]`
is subscripted (line 149), so a token body lacking only `"id"` leaves the
token field updated when the `KeyError` is caught. -/
def create_temp_email (w : World) (address password : String)
    (domResp : HttpOutcome (List String)) (us ps : Nat → Nat)
    (accResp : HttpOutcome Unit) (tokResp : HttpOutcome TokenBody) : World × String :=
  match resolve_address address domResp us with
  | .err m => (w, create_errmsg m)
  | .early msg => (w, msg)
  | .ok addr =>
    let pwd := resolve_password password ps
    match accResp with
    | .exn m => (w, create_errmsg m)
    | .resp status body =>
      if status = 422 then (w, conflict_msg addr)
      else
        match raiseForStatus status with
        | .error m => (w, create_errmsg m)
        | .ok _ =>
          match body with
          | .error m => (w, create_errmsg m)
          | .ok _ =>
            match tokResp with
            | .exn m => (w, create_errmsg m)
            | .resp tstatus tbody =>
              match raiseForStatus tstatus with
              | .error m => (w, create_errmsg m)
              | .ok _ =>
                match tbody with
                | .error m => (w, create_errmsg m)
                | .ok data =>
                  match data.token with
                  | none => (w, create_errmsg (keyError "token"))
                  | some t =>
                    let w1 : World := { w with session := { w.session with token := some t } }
                    match data.id with
                    | none => (w1, create_errmsg (keyError "id"))
                    | some i =>
                      let s2 : Session := ⟨some t, some i, some addr⟩
                      (save_session { w1 with session := s2 }, create_success_msg addr pwd i)

/-- Generic error string of `login` (line 195). -/
def login_errmsg (m : String) : String := "Error logging in: " ++ m

/-- Success message of `login` (line 192). -/
def login_success_msg (address : String) : String :=
  "Logged in as " ++ (address ++ ". Session active.")

/-- `login` (lines 165-195): `POST /token`; status 401 gives the dedicated
invalid-credentials message, checked before `raise_for_status`.  The same
assign-then-subscript order as in `create_temp_email` applies to the two
token-body keys. -/
def login (w : World) (address password : String)
    (tokResp : HttpOutcome TokenBody) : World × String :=
  match tokResp with
  | .exn m => (w, login_errmsg m)
  | .resp status body =>
    if status = 401 then (w, "Login failed: invalid address or password.")
    else
      match raiseForStatus status with
      | .error m => (w, login_errmsg m)
      | .ok _ =>
        match body with
        | .error m => (w, login_errmsg m)
        | .ok data =>
          match data.token with
          | none => (w, login_errmsg (keyError "token"))
          | some t =>
            let w1 : World := { w with session := { w.session with token := some t } }
            match data.id with
            | none => (w1, login_errmsg (keyError "id"))
            | some i =>
              let s2 : Session := ⟨some t, some i, some address⟩
              (save_session { w1 with session := s2 }, login_success_msg address)

/-- Generic error string of `get_inbox` (line 240). -/
def inbox_errmsg (m : String) : String := "Error fetching inbox: " ++ m

/-- The four lines appended for each inbox message (lines 227-235). -/
def inbox_entry (m : MessageSummary) : List String :=
  [ "[" ++ ((if m.seen.getD false then "read" else "UNREAD") ++ ("] " ++ m.subject.getD "(no subject)")),
    "  From: " ++ m.fromAddr.getD "unknown",
    "  ID:   " ++ m.id.getD "",
    "" ]

/-- `get_inbox` (lines 198-240): requires a session, reloads it again for
the auth header, fetches one page and renders it; the empty page gets an
explicit message. -/
def get_inbox (w : World) (page : Int) (resp : HttpOutcome InboxBody) : World × String :=
  match require_session w with
  | (w1, some err) => (w1, err)
  | (w1, none) =>
    let w2 := (auth_headers w1).1
    match resp with
    | .exn m => (w2, inbox_errmsg m)
    | .resp status body =>
      match raiseForStatus status with
      | .error m => (w2, inbox_errmsg m)
      | .ok _ =>
        match body with
        | .error m => (w2, inbox_errmsg m)
        | .ok b =>
          let messages := b.member.getD []
          let total := b.totalItems.getD 0
          if messages.isEmpty then
            (w2, "Inbox is empty for " ++ (pyStr w2.session.address ++ "."))
          else
            let header := "Inbox: " ++ (pyStr w2.session.address ++ (" | " ++
              (toString total ++ (" message(s) total | Page " ++ toString page))))
            (w2, pyRstrip (String.intercalate "\n"
              (header :: dashes60 :: (messages.map inbox_entry).flatten)))

/-- The dedicated HTTP 404 message shared verbatim by `read_email` (line
263), `mark_as_read` (line 311) and `delete_email` (line 339). -/
def not_found_msg (message_id : String) : String :=
  "Message '" ++ (message_id ++ "' not found.")

/-- Generic error string of `read_email` (line 287). -/
def read_errmsg (m : String) : String := "Error reading email: " ++ m

/-- Body selection of `read_email` (lines 271-274): the plain-text field if
truthy, else `html[0]` if the `html` list is truthy, else the placeholder.
Note the `.get("html", [""])` default: a message without an `html` key
yields the singleton `[""]`, whose first element is the empty string. -/
def message_body (m : MessageDetail) : String :=
  let text := m.text.getD ""
  let html := m.html.getD [""]
  if text != "" then text
  else
    match html with
    | [] => "(no body)"
    | h :: _ => h

/-- Success rendering of `read_email` (lines 276-284): header block,
divider, body. -/
def format_message (message_id : String) (m : MessageDetail) : String :=
  "From:    " ++ (m.fromAddr.getD "unknown" ++ ("\nTo:      " ++
    (String.intercalate ", " ((m.toRecipients.getD []).map (fun r => r.getD "")) ++ ("\nSubject: " ++
      (m.subject.getD "(no subject)" ++ ("\nDate:    " ++
        (m.createdAt.getD "" ++ ("\nID:      " ++
          (message_id ++ ("\n" ++ (dashes60 ++ ("\n" ++ message_body m))))))))))))

/-- `read_email` (lines 243-287): requires a session; status 404 gives the
dedicated not-found message, checked before `raise_for_status`. -/
def read_email (w : World) (message_id : String)
    (resp : HttpOutcome MessageDetail) : World × String :=
  match require_session w with
  | (w1, some err) => (w1, err)
  | (w1, none) =>
    let w2 := (auth_headers w1).1
    match resp with
    | .exn m => (w2, read_errmsg m)
    | .resp status body =>
      if status = 404 then (w2, not_found_msg message_id)
      else
        match raiseForStatus status with
        | .error m => (w2, read_errmsg m)
        | .ok _ =>
          match body with
          | .error m => (w2, read_errmsg m)
          | .ok m => (w2, format_message message_id m)

/-- Generic error string of `mark_as_read` (line 316). -/
def mark_errmsg (m : String) : String := "Error marking as read: " ++ m

/-- `mark_as_read` (lines 290-316): requires a session; PATCH the message;
404 gives the dedicated message; the response body is never parsed. -/
def mark_as_read (w : World) (message_id : String)
    (resp : HttpOutcome Unit) : World × String :=
  match require_session w with
  | (w1, some err) => (w1, err)
  | (w1, none) =>
    let w2 := (auth_headers w1).1
    match resp with
    | .exn m => (w2, mark_errmsg m)
    | .resp status _body =>
      if status = 404 then (w2, not_found_msg message_id)
      else
        match raiseForStatus status with
        | .error m => (w2, mark_errmsg m)
        | .ok _ => (w2, "Message '" ++ (message_id ++ "' marked as read."))

/-- Generic error string of `delete_email` (line 346). -/
def delete_errmsg (m : String) : String := "Error deleting email: " ++ m

/-- `delete_email` (lines 319-346): requires a session; DELETE the message;
404 gives the dedicated message, 204 and any other non-error status are
both reported as deleted; the response body is never parsed. -/
def delete_email (w : World) (message_id : String)
    (resp : HttpOutcome Unit) : World × String :=
  match require_session w with
  | (w1, some err) => (w1, err)
  | (w1, none) =>
    let w2 := (auth_headers w1).1
    match resp with
    | .exn m => (w2, delete_errmsg m)
    | .resp status _body =>
      if status = 404 then (w2, not_found_msg message_id)
      else if status = 204 then (w2, "Message '" ++ (message_id ++ "' deleted."))
      else
        match raiseForStatus status with
        | .error m => (w2, delete_errmsg m)
        | .ok _ => (w2, "Message '" ++ (message_id ++ "' deleted."))

/-- The percentage of line 366: `(used / quota * 100) if quota else 0`.
Python computes the division in binary floating point; the model computes
the exact rational, which coincides on the claim-relevant guard branch
`quota = 0` where no division is performed at all. -/
def storage_pct (used quota : Int) : Rat :=
  if quota ≠ 0 then (used : Rat) / (quota : Rat) * 100 else 0

/-- Rendering of the f-string conversion `:.1f` on an exact rational:
one decimal digit, rounding half away from zero (Python rounds the nearest
binary float instead; the two agree on integers, in particular on 0). -/
def fmt1f (q : Rat) : String :=
  let t : Int := Int.floor (q * 10 + 1 / 2)
  (if t < 0 then "-" else "") ++ (toString (t.natAbs / 10) ++ ("." ++ toString (t.natAbs % 10)))

/-- The storage-percentage text spliced into the account summary. -/
def pct_display (used quota : Int) : String := fmt1f (storage_pct used quota)

/-- Success rendering of `get_account_info` (lines 367-373). -/
def account_info_msg (m : AccountBody) : String :=
  let quota := m.quota.getD 0
  let used := m.used.getD 0
  "Account:  " ++ (m.address.getD "N/A" ++ ("\nID:       " ++
    (m.id.getD "N/A" ++ ("\nStorage:  " ++
      (toString used ++ (" / " ++
        (toString quota ++ (" bytes (" ++
          (pct_display used quota ++ ("% used)\nCreated:  " ++
            (m.createdAt.getD "N/A" ++ ("\nUpdated:  " ++ m.updatedAt.getD "N/A"))))))))))))

/-- `get_account_info` (lines 349-376): requires a session; GET `/me` and
render the account summary. -/
def get_account_info (w : World) (resp : HttpOutcome AccountBody) : World × String :=
  match require_session w with
  | (w1, some err) => (w1, err)
  | (w1, none) =>
    let w2 := (auth_headers w1).1
    match resp with
    | .exn m => (w2, "Error getting account info: " ++ m)
    | .resp status body =>
      match raiseForStatus status with
      | .error m => (w2, "Error getting account info: " ++ m)
      | .ok _ =>
        match body with
        | .error m => (w2, "Error getting account info: " ++ m)
        | .ok acct => (w2, account_info_msg acct)

/-- Success message of `delete_account` (line 401); the interpolated
address was read from the session before the remote call. -/
def delete_success_msg (address : String) : String :=
  "Account '" ++ (address ++ "' permanently deleted. Session cleared.")

/-- `delete_account` (lines 379-406): requires a session, reads the stored
account id and address, DELETEs the account; only status 204 clears the
session and reports success, a 4xx/5xx raises into the generic error
string, and any other status is reported as a failure without clearing. -/
def delete_account (w : World) (resp : HttpOutcome Unit) : World × String :=
  match require_session w with
  | (w1, some err) => (w1, err)
  | (w1, none) =>
    let address := w1.session.address
    let w2 := (auth_headers w1).1
    match resp with
    | .exn m => (w2, "Error deleting account: " ++ m)
    | .resp status _body =>
      if status = 204 then (clear_session w2, delete_success_msg (pyStr address))
      else
        match raiseForStatus status with
        | .error m => (w2, "Error deleting account: " ++ m)
        | .ok _ => (w2, "Account deletion failed.")

/-- Python `_session.get("address") or "unknown"`: a falsy address (absent
or empty) falls back to the literal `unknown`. -/
def py_or_unknown : Option String → String
  | some s => if s = "" then "unknown" else s
  | none => "unknown"

/-- `logout` (lines 409-419): reload, remember the address (`or "unknown"`
for a falsy one), clear, confirm.  No remote call and no precondition. -/
def logout (w : World) : World × String :=
  let w1 := load_session w
  let address := py_or_unknown w1.session.address
  (clear_session w1, "Logged out. Session for '" ++ (address ++ "' cleared."))

/-- The process-start state (lines 27-31) with no persisted session file. -/
def initial_world : World := ⟨⟨none, none, none⟩, none⟩

/-- A representative authenticated state: all three fields set in memory,
as `login`/`create_temp_email` leave them, with no file on disk. -/
def active_world : World := ⟨⟨some "T", some "I", some "a@b.c"⟩, none⟩

/-- All three session fields are present. -/
def allPresentB (s : Session) : Bool :=
  s.token.isSome && (s.account_id.isSome && s.address.isSome)

/-- All three session fields are absent. -/
def allAbsentB (s : Session) : Bool :=
  s.token.isNone && (s.account_id.isNone && s.address.isNone)

/-- A session is never partially set: all present or all absent. -/
def goodSessionB (s : Session) : Bool := allPresentB s || allAbsentB s

/-- Both the in-memory session and the durable record (when present) are
all-or-nothing. -/
def goodWorldB (w : World) : Bool :=
  goodSessionB w.session && w.file.elim true goodSessionB

/-! ### Helper lemmas -/

theorem str_data_append (s t : String) : (s ++ t).data = s.data ++ t.data := rfl

theorem ne_of_getq (s t : String) (n : Nat) (h : s.data[n]? ≠ t.data[n]?) : s ≠ t :=
  fun he => h (by rw [he])

theorem getq_append_left (p q : String) (n : Nat) (h : n < p.data.length) :
    (p ++ q).data[n]? = p.data[n]? := by
  rw [str_data_append, List.getElem?_append, if_pos h]

theorem load_session_idem (w : World) : load_session (load_session w) = load_session w := by
  rcases w with ⟨s, f⟩
  cases f <;> rfl

theorem auth_headers_world (w : World) : (auth_headers w).1 = load_session w := rfl

theorem require_session_active (w : World)
    (h : strTruthy (load_session w).session.token = true) :
    require_session w = (load_session w, none) := by
  simp [require_session, h]

theorem require_session_inactive (w : World)
    (h : strTruthy (load_session w).session.token = false) :
    require_session w = (load_session w, some no_session_msg) := by
  simp [require_session, h]

theorem pyChoices_length (pop : List Char) (k : Nat) (seed : Nat → Nat) :
    (pyChoices pop k seed).length = k := by
  simp [pyChoices]

theorem pyChoices_all (pop : List Char) (k : Nat) (seed : Nat → Nat) (hp : pop ≠ []) :
    (pyChoices pop k seed).all (fun c => pop.contains c) = true := by
  rw [List.all_eq_true]
  intro c hc
  simp only [pyChoices, List.mem_map, List.mem_range] at hc
  obtain ⟨i, _, rfl⟩ := hc
  have hlt : seed i % pop.length < pop.length := Nat.mod_lt _ (List.length_pos.mpr hp)
  rw [List.getD_eq_getElem _ _ hlt]
  exact List.elem_eq_true_of_mem (pop.getElem_mem hlt)

theorem conflict_ne_generic (a m : String) : conflict_msg a ≠ create_errmsg m := by
  apply ne_of_getq _ _ 5
  rw [conflict_msg, create_errmsg, getq_append_left _ _ 5 (by decide),
    getq_append_left _ _ 5 (by decide)]
  decide

theorem login_failed_ne_generic (m : String) :
    ("Login failed: invalid address or password." : String) ≠ login_errmsg m := by
  apply ne_of_getq _ _ 0
  rw [login_errmsg, getq_append_left _ _ 0 (by decide)]
  decide

theorem not_found_ne_read (mid m : String) : not_found_msg mid ≠ read_errmsg m := by
  apply ne_of_getq _ _ 0
  rw [not_found_msg, read_errmsg, getq_append_left _ _ 0 (by decide),
    getq_append_left _ _ 0 (by decide)]
  decide

theorem not_found_ne_mark (mid m : String) : not_found_msg mid ≠ mark_errmsg m := by
  apply ne_of_getq _ _ 0
  rw [not_found_msg, mark_errmsg, getq_append_left _ _ 0 (by decide),
    getq_append_left _ _ 0 (by decide)]
  decide

theorem not_found_ne_delete (mid m : String) : not_found_msg mid ≠ delete_errmsg m := by
  apply ne_of_getq _ _ 0
  rw [not_found_msg, delete_errmsg, getq_append_left _ _ 0 (by decide),
    getq_append_left _ _ 0 (by decide)]
  decide

theorem create_err_ne_success (m a p i : String) :
    create_errmsg m ≠ create_success_msg a p i := by
  apply ne_of_getq _ _ 0
  rw [create_errmsg, create_success_msg, getq_append_left _ _ 0 (by decide),
    getq_append_left _ _ 0 (by decide)]
  decide

theorem conflict_ne_success (x a p i : String) :
    conflict_msg x ≠ create_success_msg a p i := by
  apply ne_of_getq _ _ 0
  rw [conflict_msg, create_success_msg, getq_append_left _ _ 0 (by decide),
    getq_append_left _ _ 0 (by decide)]
  decide

theorem nodomains_ne_success (a p i : String) :
    ("No domains available to create an account." : String) ≠ create_success_msg a p i := by
  apply ne_of_getq _ _ 0
  rw [create_success_msg, getq_append_left _ _ 0 (by decide)]
  decide

theorem login_err_ne_success (m a : String) : login_errmsg m ≠ login_success_msg a := by
  apply ne_of_getq _ _ 0
  rw [login_errmsg, login_success_msg, getq_append_left _ _ 0 (by decide),
    getq_append_left _ _ 0 (by decide)]
  decide

theorem login_failed_ne_success (a : String) :
    ("Login failed: invalid address or password." : String) ≠ login_success_msg a := by
  apply ne_of_getq _ _ 3
  rw [login_success_msg, getq_append_left _ _ 3 (by decide)]
  decide

theorem no_session_ne_delete_success (a : String) :
    no_session_msg ≠ delete_success_msg a := by
  apply ne_of_getq _ _ 0
  rw [no_session_msg, delete_success_msg, getq_append_left _ _ 0 (by decide)]
  decide

theorem delete_err_ne_success (m a : String) :
    ("Error deleting account: " ++ m) ≠ delete_success_msg a := by
  apply ne_of_getq _ _ 0
  rw [delete_success_msg, getq_append_left _ _ 0 (by decide),
    getq_append_left _ _ 0 (by decide)]
  decide

theorem delete_failed_ne_success (a : String) :
    ("Account deletion failed." : String) ≠ delete_success_msg a := by
  apply ne_of_getq _ _ 8
  rw [delete_success_msg, getq_append_left _ _ 8 (by decide)]
  decide

theorem resolve_address_nonempty (a : String) (dom : HttpOutcome (List String))
    (us : Nat → Nat) (ha : a ≠ "") : resolve_address a dom us = .ok a := by
  rw [resolve_address.eq_def, if_neg ha]

theorem resolve_address_early_eq (a : String) (dom : HttpOutcome (List String))
    (us : Nat → Nat) (msg : String) (h : resolve_address a dom us = .early msg) :
    msg = "No domains available to create an account." := by
  by_cases ha : a = ""
  · subst ha
    rw [resolve_address.eq_def, if_pos rfl] at h
    rcases dom with m | ⟨st, b⟩
    · exact absurd h (by simp)
    · dsimp only at h
      rcases hrs : raiseForStatus st with m | u <;> rw [hrs] at h
      · exact absurd h (by simp)
      · rcases b with m | l
        · exact absurd h (by simp)
        · rcases l with _ | ⟨d, rest⟩
          · dsimp only at h
            injection h with h'
            exact h'.symm
          · exact absurd h (by simp)
  · rw [resolve_address_nonempty a dom us ha] at h
    exact absurd h (by simp)

theorem login_cases (w : World) (a p : String) (tok : HttpOutcome TokenBody) :
    ((login w a p tok).1 = w ∧ (login w a p tok).2 ≠ login_success_msg a) ∨
    (∃ t, (login w a p tok).1 = { w with session := { w.session with token := some t } } ∧
      (login w a p tok).2 = login_errmsg (keyError "id")) ∨
    (∃ t i, (login w a p tok).1 = ⟨⟨some t, some i, some a⟩, some ⟨some t, some i, some a⟩⟩ ∧
      (login w a p tok).2 = login_success_msg a) := by
  rcases tok with m | ⟨st, b⟩
  · exact Or.inl ⟨rfl, login_err_ne_success m a⟩
  · by_cases h401 : st = 401
    · subst h401
      exact Or.inl ⟨rfl, login_failed_ne_success a⟩
    · rcases hrs : raiseForStatus st with m | u
      · have hv : login w a p (.resp st b) = (w, login_errmsg m) := by
          simp only [login, if_neg h401, hrs]
        rw [hv]
        exact Or.inl ⟨rfl, login_err_ne_success m a⟩
      · rcases b with m | ⟨topt, iopt⟩
        · have hv : login w a p (.resp st (.error m)) = (w, login_errmsg m) := by
            simp only [login, if_neg h401, hrs]
          rw [hv]
          exact Or.inl ⟨rfl, login_err_ne_success m a⟩
        · rcases topt with _ | t
          · have hv : login w a p (.resp st (.ok ⟨none, iopt⟩)) =
                (w, login_errmsg (keyError "token")) := by
              simp only [login, if_neg h401, hrs]
            rw [hv]
            exact Or.inl ⟨rfl, login_err_ne_success _ a⟩
          · rcases iopt with _ | i
            · have hv : login w a p (.resp st (.ok ⟨some t, none⟩)) =
                  ({ w with session := { w.session with token := some t } },
                    login_errmsg (keyError "id")) := by
                simp only [login, if_neg h401, hrs]
              rw [hv]
              exact Or.inr (Or.inl ⟨t, rfl, rfl⟩)
            · have hv : login w a p (.resp st (.ok ⟨some t, some i⟩)) =
                  (⟨⟨some t, some i, some a⟩, some ⟨some t, some i, some a⟩⟩,
                    login_success_msg a) := by
                simp only [login, save_session, if_neg h401, hrs]
              rw [hv]
              exact Or.inr (Or.inr ⟨t, i, rfl, rfl⟩)

theorem create_cases (w : World) (a p : String) (dom : HttpOutcome (List String))
    (us ps : Nat → Nat) (acc : HttpOutcome Unit) (tok : HttpOutcome TokenBody) :
    ((create_temp_email w a p dom us ps acc tok).1 = w ∧
      ∀ a2 p2 i2, (create_temp_email w a p dom us ps acc tok).2 ≠ create_success_msg a2 p2 i2) ∨
    (∃ t, (create_temp_email w a p dom us ps acc tok).1 =
        { w with session := { w.session with token := some t } } ∧
      (create_temp_email w a p dom us ps acc tok).2 = create_errmsg (keyError "id")) ∨
    (∃ ad t i, (create_temp_email w a p dom us ps acc tok).1 =
        ⟨⟨some t, some i, some ad⟩, some ⟨some t, some i, some ad⟩⟩ ∧
      (create_temp_email w a p dom us ps acc tok).2 =
        create_success_msg ad (resolve_password p ps) i) := by
  rcases hra : resolve_address a dom us with m | msg | ad
  · have hv : create_temp_email w a p dom us ps acc tok = (w, create_errmsg m) := by
      simp only [create_temp_email, hra]
    rw [hv]
    exact Or.inl ⟨rfl, fun a2 p2 i2 => create_err_ne_success m a2 p2 i2⟩
  · have hmsg := resolve_address_early_eq a dom us msg hra
    subst hmsg
    have hv : create_temp_email w a p dom us ps acc tok =
        (w, "No domains available to create an account.") := by
      simp only [create_temp_email, hra]
    rw [hv]
    exact Or.inl ⟨rfl, fun a2 p2 i2 => nodomains_ne_success a2 p2 i2⟩
  · rcases acc with m | ⟨st, b⟩
    · have hv : create_temp_email w a p dom us ps (.exn m) tok = (w, create_errmsg m) := by
        simp only [create_temp_email, hra]
      rw [hv]
      exact Or.inl ⟨rfl, fun a2 p2 i2 => create_err_ne_success m a2 p2 i2⟩
    · by_cases h422 : st = 422
      · subst h422
        have hv : create_temp_email w a p dom us ps (.resp 422 b) tok = (w, conflict_msg ad) := by
          simp only [create_temp_email, hra, if_true]
        rw [hv]
        exact Or.inl ⟨rfl, fun a2 p2 i2 => conflict_ne_success ad a2 p2 i2⟩
      · rcases hrs : raiseForStatus st with m | u
        · have hv : create_temp_email w a p dom us ps (.resp st b) tok =
              (w, create_errmsg m) := by
            simp only [create_temp_email, hra, if_neg h422, hrs]
          rw [hv]
          exact Or.inl ⟨rfl, fun a2 p2 i2 => create_err_ne_success m a2 p2 i2⟩
        · rcases b with m | bu
          · have hv : create_temp_email w a p dom us ps (.resp st (.error m)) tok =
                (w, create_errmsg m) := by
              simp only [create_temp_email, hra, if_neg h422, hrs]
            rw [hv]
            exact Or.inl ⟨rfl, fun a2 p2 i2 => create_err_ne_success m a2 p2 i2⟩
          · rcases tok with m | ⟨ts, tb⟩
            · have hv : create_temp_email w a p dom us ps (.resp st (.ok bu)) (.exn m) =
                  (w, create_errmsg m) := by
                simp only [create_temp_email, hra, if_neg h422, hrs]
              rw [hv]
              exact Or.inl ⟨rfl, fun a2 p2 i2 => create_err_ne_success m a2 p2 i2⟩
            · rcases hts : raiseForStatus ts with m | u2
              · have hv : create_temp_email w a p dom us ps (.resp st (.ok bu))
                    (.resp ts tb) = (w, create_errmsg m) := by
                  simp only [create_temp_email, hra, if_neg h422, hrs, hts]
                rw [hv]
                exact Or.inl ⟨rfl, fun a2 p2 i2 => create_err_ne_success m a2 p2 i2⟩
              · rcases tb with m | ⟨topt, iopt⟩
                · have hv : create_temp_email w a p dom us ps (.resp st (.ok bu))
                      (.resp ts (.error m)) = (w, create_errmsg m) := by
                    simp only [create_temp_email, hra, if_neg h422, hrs, hts]
                  rw [hv]
                  exact Or.inl ⟨rfl, fun a2 p2 i2 => create_err_ne_success m a2 p2 i2⟩
                · rcases topt with _ | t
                  · have hv : create_temp_email w a p dom us ps (.resp st (.ok bu))
                        (.resp ts (.ok ⟨none, iopt⟩)) =
                          (w, create_errmsg (keyError "token")) := by
                      simp only [create_temp_email, hra, if_neg h422, hrs, hts]
                    rw [hv]
                    exact Or.inl ⟨rfl, fun a2 p2 i2 => create_err_ne_success _ a2 p2 i2⟩
                  · rcases iopt with _ | i
                    · have hv : create_temp_email w a p dom us ps (.resp st (.ok bu))
                          (.resp ts (.ok ⟨some t, none⟩)) =
                            ({ w with session := { w.session with token := some t } },
                              create_errmsg (keyError "id")) := by
                        simp only [create_temp_email, hra, if_neg h422, hrs, hts]
                      rw [hv]
                      exact Or.inr (Or.inl ⟨t, rfl, rfl⟩)
                    · have hv : create_temp_email w a p dom us ps (.resp st (.ok bu))
                          (.resp ts (.ok ⟨some t, some i⟩)) =
                            (⟨⟨some t, some i, some ad⟩, some ⟨some t, some i, some ad⟩⟩,
                              create_success_msg ad (resolve_password p ps) i) := by
                        simp only [create_temp_email, save_session, hra, if_neg h422, hrs, hts]
                      rw [hv]
                      exact Or.inr (Or.inr ⟨ad, t, i, rfl, rfl⟩)

theorem auth_after_load (w : World) : (auth_headers (load_session w)).1 = load_session w := by
  rw [auth_headers_world, load_session_idem]

theorem get_inbox_world (w : World) (pg : Int) (r : HttpOutcome InboxBody) :
    (get_inbox w pg r).1 = load_session w := by
  rcases ht : strTruthy (load_session w).session.token
  · rw [get_inbox, require_session_inactive w ht]
  · rw [get_inbox, require_session_active w ht]
    rcases r with m | ⟨st, b⟩
    · exact auth_after_load w
    · dsimp only
      rcases hrs : raiseForStatus st with m | u
      · exact auth_after_load w
      · dsimp only
        rcases b with m | bb
        · exact auth_after_load w
        · dsimp only
          split
          · exact auth_after_load w
          · exact auth_after_load w

theorem read_email_world (w : World) (mid : String) (r : HttpOutcome MessageDetail) :
    (read_email w mid r).1 = load_session w := by
  rcases ht : strTruthy (load_session w).session.token
  · rw [read_email, require_session_inactive w ht]
  · rw [read_email, require_session_active w ht]
    rcases r with m | ⟨st, b⟩
    · exact auth_after_load w
    · dsimp only
      by_cases h404 : st = 404
      · rw [if_pos h404]
        exact auth_after_load w
      · rw [if_neg h404]
        rcases hrs : raiseForStatus st with m | u
        · exact auth_after_load w
        · dsimp only
          rcases b with m | bb
          · exact auth_after_load w
          · exact auth_after_load w

theorem mark_as_read_world (w : World) (mid : String) (r : HttpOutcome Unit) :
    (mark_as_read w mid r).1 = load_session w := by
  rcases ht : strTruthy (load_session w).session.token
  · rw [mark_as_read, require_session_inactive w ht]
  · rw [mark_as_read, require_session_active w ht]
    rcases r with m | ⟨st, b⟩
    · exact auth_after_load w
    · dsimp only
      by_cases h404 : st = 404
      · rw [if_pos h404]
        exact auth_after_load w
      · rw [if_neg h404]
        rcases hrs : raiseForStatus st with m | u
        · exact auth_after_load w
        · exact auth_after_load w

theorem delete_email_world (w : World) (mid : String) (r : HttpOutcome Unit) :
    (delete_email w mid r).1 = load_session w := by
  rcases ht : strTruthy (load_session w).session.token
  · rw [delete_email, require_session_inactive w ht]
  · rw [delete_email, require_session_active w ht]
    rcases r with m | ⟨st, b⟩
    · exact auth_after_load w
    · dsimp only
      by_cases h404 : st = 404
      · rw [if_pos h404]
        exact auth_after_load w
      · rw [if_neg h404]
        by_cases h204 : st = 204
        · rw [if_pos h204]
          exact auth_after_load w
        · rw [if_neg h204]
          rcases hrs : raiseForStatus st with m | u
          · exact auth_after_load w
          · exact auth_after_load w

theorem get_account_info_world (w : World) (r : HttpOutcome AccountBody) :
    (get_account_info w r).1 = load_session w := by
  rcases ht : strTruthy (load_session w).session.token
  · rw [get_account_info, require_session_inactive w ht]
  · rw [get_account_info, require_session_active w ht]
    rcases r with m | ⟨st, b⟩
    · exact auth_after_load w
    · dsimp only
      rcases hrs : raiseForStatus st with m | u
      · exact auth_after_load w
      · dsimp only
        rcases b with m | bb
        · exact auth_after_load w
        · exact auth_after_load w

theorem delete_account_world (w : World) (r : HttpOutcome Unit) :
    (delete_account w r).1 = load_session w ∨
      (delete_account w r).1 = ⟨⟨none, none, none⟩, none⟩ := by
  rcases ht : strTruthy (load_session w).session.token
  · rw [delete_account, require_session_inactive w ht]
    exact Or.inl rfl
  · rw [delete_account, require_session_active w ht]
    rcases r with m | ⟨st, b⟩
    · exact Or.inl (auth_after_load w)
    · dsimp only
      by_cases h204 : st = 204
      · rw [if_pos h204]
        exact Or.inr rfl
      · rw [if_neg h204]
        rcases hrs : raiseForStatus st with m | u
        · exact Or.inl (auth_after_load w)
        · exact Or.inl (auth_after_load w)

theorem logout_world (w : World) : (logout w).1 = ⟨⟨none, none, none⟩, none⟩ := rfl

theorem goodWorldB_load (w : World) (h : goodWorldB w = true) :
    goodWorldB (load_session w) = true := by
  rcases w with ⟨s, f⟩
  rcases f with _ | rec
  · exact h
  · simp only [goodWorldB, load_session, Option.elim, Bool.and_eq_true] at h ⊢
    exact ⟨h.2, h.2⟩

theorem goodWorldB_cleared : goodWorldB ⟨⟨none, none, none⟩, none⟩ = true := rfl

/-! ### Executable sanity checks of the embedding -/

theorem create_success_example :
    create_temp_email initial_world "x@y.z" "pw" (.exn "unused") (fun _ => 0) (fun _ => 0)
        (.resp 200 (.ok ())) (.resp 200 (.ok ⟨some "TOK", some "ID"⟩)) =
      (⟨⟨some "TOK", some "ID", some "x@y.z"⟩, some ⟨some "TOK", some "ID", some "x@y.z"⟩⟩,
        create_success_msg "x@y.z" "pw" "ID") := by decide

theorem gen_username_example : gen_username (fun i => i) = "abcdefghij" := by decide

theorem list_domains_example :
    list_domains (.resp 200 (.ok ["mail.tm", "other.tld"])) =
      "Available domains:\n  - mail.tm\n  - other.tld" := by decide

theorem get_inbox_example :
    (get_inbox active_world 1 (.resp 200 (.ok
        ⟨some [⟨some "s@e.c", some "Hi", some false, some "mid1"⟩], some 1⟩))).2 =
      "Inbox: a@b.c | 1 message(s) total | Page 1\n" ++
        (dashes60 ++ "\n[UNREAD] Hi\n  From: s@e.c\n  ID:   mid1") := by decide

theorem read_email_example :
    (read_email active_world "mid1" (.resp 200 (.ok
        ⟨some "f@e.c", some "Sub", some [some "a@b.c"], some "2024-01-01", some "Hello",
          some ["<p>x</p>"]⟩))).2 =
      "From:    f@e.c\nTo:      a@b.c\nSubject: Sub\nDate:    2024-01-01\nID:      mid1\n" ++
        (dashes60 ++ "\nHello") := by decide

/-! ### Claim theorems -/

/-- C3: every session-requiring tool (get_inbox, read_email, mark_as_read,
delete_email, get_account_info, delete_account), called in the
process-start state with no persisted session record, returns exactly the
instructional no-active-session message and leaves the state unchanged;
the result is the same for every possible remote outcome, i.e. no remote
call is consulted. -/
theorem no_session_exact_message :
    ∀ (page : Int) (mid : String) (ib : HttpOutcome InboxBody) (rd : HttpOutcome MessageDetail)
      (mk dl da : HttpOutcome Unit) (ai : HttpOutcome AccountBody),
    get_inbox initial_world page ib = (initial_world, no_session_msg) ∧
    read_email initial_world mid rd = (initial_world, no_session_msg) ∧
    mark_as_read initial_world mid mk = (initial_world, no_session_msg) ∧
    delete_email initial_world mid dl = (initial_world, no_session_msg) ∧
    get_account_info initial_world ai = (initial_world, no_session_msg) ∧
    delete_account initial_world da = (initial_world, no_session_msg) := by
  intro page mid ib rd mk dl da ai
  exact ⟨rfl, rfl, rfl, rfl, rfl, rfl⟩

/-- C5: logout is idempotent and never fails: from any starting world, the
second of two consecutive logout calls reports the address as `unknown`
and leaves all three in-memory fields absent and the durable record
removed (both calls being total functions, neither can fail). -/
theorem logout_idempotent (w : World) :
    (logout (logout w).1).2 = "Logged out. Session for 'unknown' cleared." ∧
    (logout (logout w).1).1.session = ⟨none, none, none⟩ ∧
    (logout (logout w).1).1.file = none :=
  ⟨rfl, rfl, rfl⟩

/-- C7 counterexample: a message whose `text` and `html` keys are both
absent is rendered by `read_email` with the empty string as body — not the
literal `(no body)` placeholder the claim requires for a message with no
plain text and no HTML fragments (the `.get("html", [""])` default
supplies a non-empty fragment list whose first element is `""`). -/
theorem body_default_counterexample :
    message_body ⟨none, none, none, none, none, none⟩ = "" ∧
    message_body ⟨none, none, none, none, none, none⟩ ≠ "(no body)" ∧
    (read_email active_world "m1" (.resp 200 (.ok ⟨none, none, none, none, none, none⟩))).2 =
      format_message "m1" ⟨none, none, none, none, none, none⟩ :=
  ⟨rfl, by decide, rfl⟩

/-- C7 (amended): the displayed body is the plain-text field when
non-empty; otherwise, when the `html` field is present, the first fragment
if the list is non-empty and `(no body)` if it is empty; when the `html`
field is absent, the displayed body is the empty string (the head of the
`[""]` default).  `read_email` renders exactly this body for every
successfully fetched message. -/
theorem body_selection_amended :
    ∀ (m : MessageDetail) (mid : String),
    message_body m =
      (if m.text.getD "" != "" then m.text.getD ""
       else
         match m.html with
         | none => ""
         | some [] => "(no body)"
         | some (h :: _) => h) ∧
    (read_email active_world mid (.resp 200 (.ok m))).2 = format_message mid m := by
  intro m mid
  constructor
  · rcases m with ⟨f, s, t, c, tx, ht⟩
    rcases ht with _ | (_ | ⟨h, hs⟩) <;> rfl
  · rfl

/-- C8: get_account_info never faults on division: the percentage guard
`(used / quota * 100) if quota else 0` makes the reported storage usage
exactly 0 when the quota field is 0, rendered as the digits 0.0 in the
summary, for every value of the used field; no division is evaluated on
that branch. -/
theorem quota_zero_pct :
    ∀ (u : Int) (adr idf cr up : Option String) (usd : Option Int),
    storage_pct u 0 = 0 ∧
    pct_display u 0 = "0.0" ∧
    get_account_info active_world (.resp 200 (.ok ⟨adr, idf, some 0, usd, cr, up⟩)) =
      (active_world, account_info_msg ⟨adr, idf, some 0, usd, cr, up⟩) ∧
    account_info_msg ⟨some "a@b.c", some "I", some 0, some 5, none, none⟩ =
      "Account:  a@b.c\nID:       I\nStorage:  5 / 0 bytes (0.0% used)\nCreated:  N/A\nUpdated:  N/A" := by
  intro u adr idf cr up usd
  have hsp : ∀ v : Int, storage_pct v 0 = 0 := by
    intro v
    simp [storage_pct]
  have hfmt : fmt1f 0 = "0.0" := by
    have hfloor : Int.floor ((0 : Rat) * 10 + 1 / 2) = 0 := by norm_num
    simp only [fmt1f, hfloor]
    decide
  have hpd : ∀ v : Int, pct_display v 0 = "0.0" := by
    intro v
    rw [pct_display, hsp v, hfmt]
  refine ⟨hsp u, hpd u, rfl, ?_⟩
  simp only [account_info_msg, Option.getD_some, Option.getD_none, hpd 5]
  decide

/-- C9: for every outcome of the random draws, a generated address is
exactly 10 characters from the lowercase+digits population followed by `@`
and the first listed domain, and a generated password is exactly 16
characters from the letters+digits+`!@#$%` population; these are the
values create_temp_email uses when the given address or password is
empty. -/
theorem random_credentials :
    ∀ (us ps : Nat → Nat) (d : String) (rest : List String) (w : World) (p : String)
      (b : Except String Unit) (tok : HttpOutcome TokenBody),
    (gen_username us).length = 10 ∧
    (gen_username us).data.all (fun c => lower_alnum.contains c) = true ∧
    (gen_password ps).length = 16 ∧
    (gen_password ps).data.all (fun c => password_chars.contains c) = true ∧
    resolve_address "" (.resp 200 (.ok (d :: rest))) us = .ok (gen_username us ++ ("@" ++ d)) ∧
    resolve_password "" ps = gen_password ps ∧
    (create_temp_email w "" p (.resp 200 (.ok (d :: rest))) us ps (.resp 422 b) tok).2 =
      conflict_msg (gen_username us ++ ("@" ++ d)) := by
  intro us ps d rest w p b tok
  refine ⟨pyChoices_length lower_alnum 10 us, pyChoices_all lower_alnum 10 us (by decide),
    pyChoices_length password_chars 16 ps, pyChoices_all password_chars 16 ps (by decide),
    rfl, rfl, rfl⟩

/-- C4 counterexample: with the durable record absent but in-memory state
left behind by an earlier operation (token, id and address set), the
reload is a no-op on the in-memory session, so `get_inbox` proceeds with
the remote call and answers from the stale in-memory session instead of
returning the no-active-session message. -/
theorem stale_memory_counterexample :
    active_world.file = none ∧
    load_session active_world = active_world ∧
    (load_session active_world).session.token = some "T" ∧
    (get_inbox active_world 1 (.resp 200 (.ok ⟨some [], some 0⟩))).2 =
      "Inbox is empty for a@b.c." ∧
    (get_inbox active_world 1 (.resp 200 (.ok ⟨some [], some 0⟩))).2 ≠ no_session_msg :=
  ⟨rfl, rfl, rfl, by decide, by decide⟩

/-- C4 (amended): when the durable record is absent, the reload leaves the
in-memory session exactly as it was (it does not clear it), so a
session-requiring tool returns the no-active-session message precisely
when the in-memory token is also absent or empty — in particular in a
fresh process, where the in-memory session starts empty. -/
theorem absent_record_amended :
    ∀ (w : World) (page : Int) (mid : String) (ib : HttpOutcome InboxBody)
      (rd : HttpOutcome MessageDetail) (mk dl da : HttpOutcome Unit)
      (ai : HttpOutcome AccountBody),
    w.file = none →
    load_session w = w ∧
    (strTruthy w.session.token = false →
      get_inbox w page ib = (w, no_session_msg) ∧
      read_email w mid rd = (w, no_session_msg) ∧
      mark_as_read w mid mk = (w, no_session_msg) ∧
      delete_email w mid dl = (w, no_session_msg) ∧
      get_account_info w ai = (w, no_session_msg) ∧
      delete_account w da = (w, no_session_msg)) := by
  intro w page mid ib rd mk dl da ai hf
  have hl : load_session w = w := by
    rw [load_session.eq_def, hf]
  refine ⟨hl, fun ht => ?_⟩
  have ht2 : strTruthy (load_session w).session.token = false := by
    rw [hl]
    exact ht
  have hreq := require_session_inactive w ht2
  rw [hl] at hreq
  exact ⟨by rw [get_inbox, hreq], by rw [read_email, hreq], by rw [mark_as_read, hreq],
    by rw [delete_email, hreq], by rw [get_account_info, hreq], by rw [delete_account, hreq]⟩

/-- Witness for the amended C4: a world with no durable record whose
in-memory token is absent (though other stale fields remain) gets the
exact no-active-session message. -/
theorem absent_record_amended_witness :
    load_session ⟨⟨none, some "I", some "a@b.c"⟩, none⟩ = ⟨⟨none, some "I", some "a@b.c"⟩, none⟩ ∧
    get_inbox ⟨⟨none, some "I", some "a@b.c"⟩, none⟩ 1 (.exn "boom") =
      (⟨⟨none, some "I", some "a@b.c"⟩, none⟩, no_session_msg) ∧
    delete_account ⟨⟨none, some "I", some "a@b.c"⟩, none⟩ (.exn "boom") =
      (⟨⟨none, some "I", some "a@b.c"⟩, none⟩, no_session_msg) := by
  obtain ⟨h1, h2⟩ := absent_record_amended ⟨⟨none, some "I", some "a@b.c"⟩, none⟩ 1 "m"
    (.exn "boom") (.exn "boom") (.exn "boom") (.exn "boom") (.exn "boom") (.exn "boom") rfl
  exact ⟨h1, (h2 rfl).1, (h2 rfl).2.2.2.2.2⟩

/-- C6: the specific status codes are answered with dedicated messages,
each distinct from the tool's generic error fallback: 422 on account
creation names the attempted address, 401 on login gives the
invalid-credentials message, and 404 on read_email / mark_as_read /
delete_email names the message id. -/
theorem dedicated_status_messages :
    ∀ (w : World) (a p mid m : String) (dom : HttpOutcome (List String)) (us ps : Nat → Nat)
      (tok : HttpOutcome TokenBody) (bU : Except String Unit) (bT : Except String TokenBody)
      (bM : Except String MessageDetail) (bU2 bU3 : Except String Unit),
    a ≠ "" →
    strTruthy (load_session w).session.token = true →
    ((create_temp_email w a p dom us ps (.resp 422 bU) tok).2 = conflict_msg a ∧
     conflict_msg a ≠ create_errmsg m ∧
     (login w a p (.resp 401 bT)).2 = "Login failed: invalid address or password." ∧
     ("Login failed: invalid address or password." : String) ≠ login_errmsg m ∧
     (read_email w mid (.resp 404 bM)).2 = not_found_msg mid ∧
     not_found_msg mid ≠ read_errmsg m ∧
     (mark_as_read w mid (.resp 404 bU2)).2 = not_found_msg mid ∧
     not_found_msg mid ≠ mark_errmsg m ∧
     (delete_email w mid (.resp 404 bU3)).2 = not_found_msg mid ∧
     not_found_msg mid ≠ delete_errmsg m) := by
  intro w a p mid m dom us ps tok bU bT bM bU2 bU3 ha ht
  have hreq := require_session_active w ht
  have hra := resolve_address_nonempty a dom us ha
  have hcreate : create_temp_email w a p dom us ps (.resp 422 bU) tok = (w, conflict_msg a) := by
    simp only [create_temp_email, hra, if_true]
  refine ⟨by rw [hcreate], conflict_ne_generic a m, rfl, login_failed_ne_generic m,
    ?_, not_found_ne_read mid m, ?_, not_found_ne_mark mid m, ?_, not_found_ne_delete mid m⟩
  · rw [read_email, hreq]
    rfl
  · rw [mark_as_read, hreq]
    rfl
  · rw [delete_email, hreq]
    rfl

/-- Witness for C6: at an authenticated world, 422 on creation 401 on
login and 404 on read_email produce their dedicated messages. -/
theorem dedicated_status_messages_witness :
    (create_temp_email active_world "taken@example.com" "pw" (.exn "unused") (fun _ => 0)
        (fun _ => 0) (.resp 422 (.ok ())) (.exn "unused")).2 =
      conflict_msg "taken@example.com" ∧
    (login active_world "taken@example.com" "pw" (.resp 401 (.error "x"))).2 =
      "Login failed: invalid address or password." ∧
    (read_email active_world "nonexistent-id" (.resp 404 (.error "x"))).2 =
      not_found_msg "nonexistent-id" := by
  obtain ⟨h1, _, h3, _, h5, _⟩ := dedicated_status_messages active_world "taken@example.com"
    "pw" "nonexistent-id" "boom" (.exn "unused") (fun _ => 0) (fun _ => 0) (.exn "unused")
    (.ok ()) (.error "x") (.error "x") (.error "x") (.error "x") (by decide) (by decide)
  exact ⟨h1, h3, h5⟩

/-- C2: every exception raised by a remote call or while parsing its
response is caught at the tool boundary and converted into the tool's
generic string of the form `Error <verb>ing <noun>: <message>`; modelled
exception points: the request raising, a 4xx/5xx status turned into an
HTTPError by raise_for_status, an unparseable body, and a missing key in
the token body.  That the tools are total Lean functions embeds the rest
of the policy: no exception propagates out of a tool call and every call
independently recovers to a string result. -/
theorem tool_errors_caught :
    ∀ (w : World) (m a p mid : String) (page : Int) (dom : HttpOutcome (List String))
      (us ps : Nat → Nat) (acc : HttpOutcome Unit) (tok : HttpOutcome TokenBody)
      (bD : Except String (List String)) (bT : Except String TokenBody),
    a ≠ "" →
    strTruthy (load_session w).session.token = true →
    (list_domains (.exn m) = "Error listing domains: " ++ m ∧
     list_domains (.resp 200 (.error m)) = "Error listing domains: " ++ m ∧
     list_domains (.resp 500 bD) = "Error listing domains: " ++ raise_msg 500 ∧
     (create_temp_email w "" p (.exn m) us ps acc tok).2 = create_errmsg m ∧
     (create_temp_email w a p dom us ps (.exn m) tok).2 = create_errmsg m ∧
     (create_temp_email w a p dom us ps (.resp 500 (.ok ())) tok).2 =
       create_errmsg (raise_msg 500) ∧
     (create_temp_email w a p dom us ps (.resp 200 (.error m)) tok).2 = create_errmsg m ∧
     (create_temp_email w a p dom us ps (.resp 200 (.ok ())) (.exn m)).2 = create_errmsg m ∧
     (create_temp_email w a p dom us ps (.resp 200 (.ok ())) (.resp 200 (.error m))).2 =
       create_errmsg m ∧
     (create_temp_email w a p dom us ps (.resp 200 (.ok ())) (.resp 200 (.ok ⟨none, none⟩))).2 =
       create_errmsg (keyError "token") ∧
     (login w a p (.exn m)).2 = login_errmsg m ∧
     (login w a p (.resp 500 bT)).2 = login_errmsg (raise_msg 500) ∧
     (login w a p (.resp 200 (.error m))).2 = login_errmsg m ∧
     get_inbox w page (.exn m) = (load_session w, inbox_errmsg m) ∧
     read_email w mid (.exn m) = (load_session w, read_errmsg m) ∧
     mark_as_read w mid (.exn m) = (load_session w, mark_errmsg m) ∧
     delete_email w mid (.exn m) = (load_session w, delete_errmsg m) ∧
     get_account_info w (.exn m) = (load_session w, "Error getting account info: " ++ m) ∧
     delete_account w (.exn m) = (load_session w, "Error deleting account: " ++ m)) := by
  intro w m a p mid page dom us ps acc tok bD bT ha ht
  have hreq := require_session_active w ht
  have hra := resolve_address_nonempty a dom us ha
  refine ⟨rfl, rfl, rfl, rfl, ?_, ?_, ?_, ?_, ?_, ?_, rfl, rfl, rfl, ?_, ?_, ?_, ?_, ?_, ?_⟩
  · rw [create_temp_email, hra]
  · rw [create_temp_email, hra]
    rfl
  · rw [create_temp_email, hra]
    rfl
  · rw [create_temp_email, hra]
    rfl
  · rw [create_temp_email, hra]
    rfl
  · rw [create_temp_email, hra]
    rfl
  · rw [get_inbox, hreq]
    exact Prod.ext (auth_after_load w) rfl
  · rw [read_email, hreq]
    exact Prod.ext (auth_after_load w) rfl
  · rw [mark_as_read, hreq]
    exact Prod.ext (auth_after_load w) rfl
  · rw [delete_email, hreq]
    exact Prod.ext (auth_after_load w) rfl
  · rw [get_account_info, hreq]
    exact Prod.ext (auth_after_load w) rfl
  · rw [delete_account, hreq]
    exact Prod.ext (auth_after_load w) rfl

/-- Witness for C2: three representative exception points at an
authenticated world all come back as the formatted error strings. -/
theorem tool_errors_caught_witness :
    list_domains (.exn "boom") = "Error listing domains: " ++ "boom" ∧
    (login active_world "x@y.z" "pw" (.exn "boom")).2 = login_errmsg "boom" ∧
    mark_as_read active_world "m1" (.exn "boom") = (active_world, mark_errmsg "boom") := by
  have h := tool_errors_caught active_world "boom" "x@y.z" "pw" "m1" 1 (.exn "z")
    (fun _ => 0) (fun _ => 0) (.resp 200 (.ok ())) (.resp 200 (.ok ⟨some "T", some "I"⟩))
    (.ok []) (.ok ⟨none, none⟩) (by decide) (by decide)
  exact ⟨h.1, h.2.2.2.2.2.2.2.2.2.2.1, h.2.2.2.2.2.2.2.2.2.2.2.2.2.2.2.1⟩

/-- C1: the session is all-or-nothing after success: when
create_temp_email or login returns its success message all three session
fields are present; after logout (always) and after a delete_account that
returns its success message all three are absent; and from a state whose
in-memory session and durable record are each all-or-nothing, no other
session-touching tool ever produces a partially set session. -/
theorem session_all_or_nothing :
    ∀ (w : World) (a p a2 p2 i2 aD : String) (dom : HttpOutcome (List String))
      (us ps : Nat → Nat) (acc : HttpOutcome Unit) (tok tok2 : HttpOutcome TokenBody)
      (da : HttpOutcome Unit) (page : Int) (ib : HttpOutcome InboxBody) (mid : String)
      (rd : HttpOutcome MessageDetail) (mk dl : HttpOutcome Unit) (ai : HttpOutcome AccountBody),
    ((create_temp_email w a p dom us ps acc tok).2 = create_success_msg a2 p2 i2 →
      allPresentB (create_temp_email w a p dom us ps acc tok).1.session = true) ∧
    ((login w a p tok2).2 = login_success_msg a →
      allPresentB (login w a p tok2).1.session = true) ∧
    allAbsentB (logout w).1.session = true ∧
    ((delete_account w da).2 = delete_success_msg aD →
      allAbsentB (delete_account w da).1.session = true) ∧
    (goodWorldB w = true →
      goodWorldB (get_inbox w page ib).1 = true ∧
      goodWorldB (read_email w mid rd).1 = true ∧
      goodWorldB (mark_as_read w mid mk).1 = true ∧
      goodWorldB (delete_email w mid dl).1 = true ∧
      goodWorldB (get_account_info w ai).1 = true ∧
      goodWorldB (delete_account w da).1 = true ∧
      goodWorldB (logout w).1 = true) := by
  intro w a p a2 p2 i2 aD dom us ps acc tok tok2 da page ib mid rd mk dl ai
  refine ⟨?_, ?_, rfl, ?_, ?_⟩
  · intro h
    rcases create_cases w a p dom us ps acc tok with ⟨hw, hne⟩ | ⟨t, hw, hmsg⟩ |
      ⟨ad, t, i, hw, hmsg⟩
    · exact absurd h (hne a2 p2 i2)
    · rw [hmsg] at h
      exact absurd h (create_err_ne_success _ a2 p2 i2)
    · rw [hw]
      rfl
  · intro h
    rcases login_cases w a p tok2 with ⟨hw, hne⟩ | ⟨t, hw, hmsg⟩ | ⟨t, i, hw, hmsg⟩
    · exact absurd h hne
    · rw [hmsg] at h
      exact absurd h (login_err_ne_success _ a)
    · rw [hw]
      rfl
  · intro h
    rcases hts : strTruthy (load_session w).session.token
    · rw [delete_account, require_session_inactive w hts] at h ⊢
      exact absurd h (no_session_ne_delete_success aD)
    · rw [delete_account, require_session_active w hts] at h ⊢
      rcases da with m | ⟨st, b⟩
      · exact absurd h (delete_err_ne_success m aD)
      · dsimp only at h ⊢
        by_cases h204 : st = 204
        · rw [if_pos h204] at h ⊢
          rfl
        · rw [if_neg h204] at h ⊢
          rcases hrs : raiseForStatus st with m | u
          · rw [hrs] at h
            exact absurd h (delete_err_ne_success m aD)
          · rw [hrs] at h
            exact absurd h (delete_failed_ne_success aD)
  · intro hg
    have hgl := goodWorldB_load w hg
    refine ⟨?_, ?_, ?_, ?_, ?_, ?_, ?_⟩
    · rw [get_inbox_world]
      exact hgl
    · rw [read_email_world]
      exact hgl
    · rw [mark_as_read_world]
      exact hgl
    · rw [delete_email_world]
      exact hgl
    · rw [get_account_info_world]
      exact hgl
    · rcases delete_account_world w da with hd | hd
      · rw [hd]
        exact hgl
      · rw [hd]
        exact goodWorldB_cleared
    · rw [logout_world]
      exact goodWorldB_cleared

/-- C10 counterexample: a 200 token response whose body parses but lacks
the id key makes login assign the token field (line 187) before the
KeyError on data id is raised and caught, so login returns a failure
string while the in-memory session differs from the starting one (the
durable record is untouched). -/
theorem auth_partial_counterexample :
    (login initial_world "a@b.c" "pw" (.resp 200 (.ok ⟨some "T", none⟩))).2 =
      login_errmsg (keyError "id") ∧
    (login initial_world "a@b.c" "pw" (.resp 200 (.ok ⟨some "T", none⟩))).1.session ≠
      initial_world.session ∧
    (login initial_world "a@b.c" "pw" (.resp 200 (.ok ⟨some "T", none⟩))).1.session.token =
      some "T" ∧
    (login initial_world "a@b.c" "pw" (.resp 200 (.ok ⟨some "T", none⟩))).1.file =
      initial_world.file :=
  ⟨rfl, by decide, rfl, rfl⟩

/-- C10 (amended): login and create_temp_email establish authentication
atomically up to one slip: every run either (i) leaves the whole world
(in-memory fields and durable record) exactly as at the start and returns
a non-success string, or (ii) — only when the token response parses with a
token key but no id key — updates exactly the in-memory token field,
leaves everything else including the durable record unchanged, and
returns the caught-KeyError failure string, or (iii) assigns all three
fields and saves them, returning the success message; fields are assigned
and saved only after every remote call of the operation has succeeded. -/
theorem auth_atomicity_amended :
    ∀ (w : World) (a p : String) (tok : HttpOutcome TokenBody)
      (dom : HttpOutcome (List String)) (us ps : Nat → Nat) (acc : HttpOutcome Unit)
      (tok2 : HttpOutcome TokenBody),
    (((login w a p tok).1 = w ∧ (login w a p tok).2 ≠ login_success_msg a) ∨
      (∃ t, (login w a p tok).1 = { w with session := { w.session with token := some t } } ∧
        (login w a p tok).2 = login_errmsg (keyError "id")) ∨
      (∃ t i, (login w a p tok).1 = ⟨⟨some t, some i, some a⟩, some ⟨some t, some i, some a⟩⟩ ∧
        (login w a p tok).2 = login_success_msg a)) ∧
    (((create_temp_email w a p dom us ps acc tok2).1 = w ∧
        ∀ a2 p2 i2,
          (create_temp_email w a p dom us ps acc tok2).2 ≠ create_success_msg a2 p2 i2) ∨
      (∃ t, (create_temp_email w a p dom us ps acc tok2).1 =
          { w with session := { w.session with token := some t } } ∧
        (create_temp_email w a p dom us ps acc tok2).2 = create_errmsg (keyError "id")) ∨
      (∃ ad t i, (create_temp_email w a p dom us ps acc tok2).1 =
          ⟨⟨some t, some i, some ad⟩, some ⟨some t, some i, some ad⟩⟩ ∧
        (create_temp_email w a p dom us ps acc tok2).2 =
          create_success_msg ad (resolve_password p ps) i)) := by
  intro w a p tok dom us ps acc tok2
  exact ⟨login_cases w a p tok, create_cases w a p dom us ps acc tok2⟩
